import Mathlib

/-!
Verification of the client-side authentication session manager implemented
by the class AuthConfig in src/auth.ts (the jose-based revision). The
manager holds the current user and token payload in memory, mirrors the
payload into a key-value storage backend under a configurable key, decodes
access tokens to derive their expiry, refreshes expired tokens through an
injected callback, and emits SIGNIN, SETUSER and SIGNOUT events.

The embedding is a state-passing translation: every public method becomes a
function from the in-memory state (plus the behaviour of the injected
callbacks, passed as explicit arguments) to the settled promise value, the
successor state, and an ordered trace of the observable steps the method
performed. Except.error models a rejected promise; none of the methods
throws synchronously, since each either is an async function or wraps its
body in a promise executor with a try block.

External collaborators are modelled at their interface:
the storage backend is an association list together with fault switches for
the two operations the error-handling design allows to throw (getItem and
setItem); removeItem is modelled as never throwing. The decoder models
jose.decodeJwt, which throws on a malformed compact serialization and never
returns null; the base64url plus JSON claims layer is abstracted to a small
concrete scheme so that decoding stays executable.
-/

namespace CredentialAuth

/-- A user record. The source type is an open attribute map required to
contain a sub (subject identifier) field; only that field is relevant to
the verified properties, so the embedding keeps exactly it. -/
structure User where
  sub : String
deriving DecidableEq, Repr

/-- Token payload, mirroring the AuthPayload type of the source: an access
token, a refresh token, and an optional numeric expiry. -/
structure AuthPayload where
  accessToken : String
  refreshToken : String
  expiresIn : Option Nat := none
deriving DecidableEq, Repr

/-- JavaScript errors are modelled as plain strings. -/
abbrev JsError := String

/-- Truthiness of an optional JavaScript number: undefined and 0 are falsy. -/
def truthyNum : Option Nat → Bool
  | none => false
  | some n => n != 0

/-- Decoded JWT claims set; the only claim the source ever reads is exp. -/
structure JWTClaims where
  exp : Option Nat := none
deriving DecidableEq, Repr

/-- Splits a character list at every dot, keeping empty segments, exactly as
the JavaScript split on a dot does for the compact JWT serialization. -/
def splitDotsAux : List Char → List Char → List (List Char)
  | [], acc => [acc.reverse]
  | c :: cs, acc =>
      if c = '.' then acc.reverse :: splitDotsAux cs [] else splitDotsAux cs (c :: acc)

/-- Splits a string at every dot. -/
def splitDots (s : String) : List (List Char) := splitDotsAux s.data []

/-- Reads a nonempty run of decimal digits as a number; any other character
makes the parse fail. -/
def parseNatAux : List Char → Nat → Option Nat
  | [], n => some n
  | c :: cs, n => if c.isDigit then parseNatAux cs (n * 10 + (c.toNat - 48)) else none

/-- Parses a character list as a decimal numeral. -/
def parseNatChars (cs : List Char) : Option Nat :=
  if cs = [] then none else parseNatAux cs 0

/-- Parses the claims segment of a token. The base64url and JSON layer of
the real decoder is abstracted: a decimal numeral denotes a claims set
whose exp is that number, the literal text noexp denotes a claims set
without an exp claim, and anything else fails to parse. -/
def parseClaimsPart (cs : List Char) : Option JWTClaims :=
  if cs = "noexp".data then some {} else (parseNatChars cs).map (fun n => { exp := some n })

/-- Model of the external jose.decodeJwt used by the source: it splits the
compact serialization on dots, requires exactly three segments with a
parsable claims segment, and throws JWTInvalid otherwise. It never
returns null, so the null comparison the source performs on its result is
unreachable dead code (inherited from a jsonwebtoken-based revision whose
decode did return null on failure). -/
def decodeJwt (tok : String) : Except JsError JWTClaims :=
  match splitDots tok with
  | [_, claimsPart, _] =>
      match parseClaimsPart claimsPart with
      | some c => Except.ok c
      | none => Except.error "JWTInvalid: Invalid JWT"
  | _ => Except.error "JWTInvalid: Invalid JWT"

/-- JSON.stringify of an AuthPayload; an absent expiresIn field is omitted,
exactly as JSON.stringify omits undefined optional fields. -/
def stringifyPayload (p : AuthPayload) : String :=
  "\x7b\"accessToken\":\"" ++ p.accessToken ++ "\",\"refreshToken\":\"" ++ p.refreshToken ++
    "\"" ++
    (match p.expiresIn with
     | none => ""
     | some n => ",\"expiresIn\":" ++ toString n) ++ "\x7d"

/-- Contents of the storage backend together with fault switches for the two
operations the error-handling design of the source allows to throw:
getItem (read failure) and setItem (write failure). removeItem is
modelled as never throwing. -/
structure StoreState where
  items : List (String × String)
  getFails : Bool := false
  setFails : Bool := false
deriving DecidableEq, Repr

/-- Value stored under a key, if any. -/
def StoreState.lookup (st : StoreState) (k : String) : Option String :=
  (st.items.find? (fun kv => kv.1 == k)).map (fun kv => kv.2)

/-- storage.setItem: throws when the write fault switch is on, otherwise
replaces the binding of the key. -/
def StoreState.setItem (st : StoreState) (k v : String) : Except JsError StoreState :=
  if st.setFails then Except.error "storage.setItem threw"
  else Except.ok { st with items := (k, v) :: st.items.filter (fun kv => kv.1 != k) }

/-- storage.getItem: throws when the read fault switch is on, otherwise
returns the stored value or null. -/
def StoreState.getItem (st : StoreState) (k : String) : Except JsError (Option String) :=
  if st.getFails then Except.error "storage.getItem threw" else Except.ok (st.lookup k)

/-- storage.removeItem: drops the binding of the key. -/
def StoreState.removeItem (st : StoreState) (k : String) : StoreState :=
  { st with items := st.items.filter (fun kv => kv.1 != k) }

/-- Events emitted on the event bus. -/
inductive EmitEv
  | SIGNIN (u : User) (p : AuthPayload)
  | SIGNOUT
  | SETUSER (p : AuthPayload)
deriving DecidableEq, Repr

/-- Observable steps of one operation, recorded in execution order: field
assignments, storage accesses, bus emissions, console logging, and calls
into the injected callbacks. -/
inductive Ev
  | callAuthorize (u : User)
  | assignUser (u : Option User)
  | assignPayload (p : Option AuthPayload)
  | storeGet (k : String)
  | storeSet (k v : String)
  | storeRemove (k : String)
  | emit (e : EmitEv)
  | logError (msg : String)
  | logInfo (msg : String)
  | callRefresh (rt : String)
  | callSignOutCallback
  | callOnSuccess (p : AuthPayload)
deriving DecidableEq, Repr

/-- In-memory state of one AuthConfig instance: the effective storage key
(fixed at construction), this.user, this.authPayload, the interceptor
eject-id registry, and the storage backend reached through
storageOptions.storage. -/
structure AuthState where
  key : String
  user : Option User := none
  authPayload : Option AuthPayload := none
  ejectIds : List Nat := []
  store : StoreState
deriving DecidableEq, Repr

/-- Storage options passed at construction. The storage object itself plays
no part in the key computation, so only the optional key field is kept;
the backing contents live in the AuthState. -/
structure StorageOptionsArg where
  key : Option String := none
deriving DecidableEq, Repr

/-- setStorageOptions: the key falls back to the default token when absent
or empty (JavaScript or-else on strings), and a truthy scope becomes a
leading namespace on the key, joined with a colon. -/
def setStorageOptionsKey (so : StorageOptionsArg) (scope : Option String) : String :=
  let key := match so.key with
    | some k => if k = "" then "token" else k
    | none => "token"
  match scope with
  | some sc => if sc = "" then key else sc ++ ":" ++ key
  | none => key

/-- Effective storage key computed by the constructor: setStorageOptions
runs only when a storageOptions argument is supplied, so without one the
default key token stays in force whatever the scope. -/
def mkKey (storageOptions : Option StorageOptionsArg) (scope : Option String) : String :=
  match storageOptions with
  | none => "token"
  | some so => setStorageOptionsKey so scope

/-- Construction of the manager over a given storage backend. -/
def AuthConfig.init (storageOptions : Option StorageOptionsArg) (scope : Option String)
    (st : StoreState) : AuthState :=
  { key := mkKey storageOptions scope, store := st }

/-- Outcome of one asynchronous operation: the settled promise value (an
Except.error is a rejection), the successor state, and the event trace. -/
abbrev Outcome (α : Type) := Except JsError α × AuthState × List Ev

/-- persistJWTTokenPayload: writes the JSON serialization of the payload
under the configured key. -/
def persistJWTTokenPayload (s : AuthState) (p : AuthPayload) : Except JsError StoreState :=
  s.store.setItem s.key (stringifyPayload p)

/-- setUser(payload): the promise executor assigns this.authPayload first,
then persists the serialized payload, emits SETUSER, logs, and resolves;
a throw from persistence is caught, logged, and turned into a rejection,
leaving the already-assigned in-memory payload in place. -/
def setUser (p : AuthPayload) (s : AuthState) : Outcome Unit :=
  let s1 := { s with authPayload := some p }
  match persistJWTTokenPayload s1 p with
  | Except.error e =>
      (Except.error e, s1, [Ev.assignPayload (some p), Ev.logError e])
  | Except.ok st =>
      (Except.ok (), { s1 with store := st },
        [Ev.assignPayload (some p), Ev.storeSet s.key (stringifyPayload p),
         Ev.emit (EmitEv.SETUSER p),
         Ev.logInfo "The user payload has been successfully updated."])

/-- getUser(): reads the stored token; a missing token resolves to null even
when an in-memory user exists, and a present token resolves to this.user.
When the read throws, the catch logs the error and calls reject(error)
followed by resolve(null); a promise settles once, so the rejection wins
and the trailing resolve is dead code. -/
def getUser (s : AuthState) : Outcome (Option User) :=
  match s.store.getItem s.key with
  | Except.error e => (Except.error e, s, [Ev.storeGet s.key, Ev.logError e])
  | Except.ok none => (Except.ok none, s, [Ev.storeGet s.key])
  | Except.ok (some _) => (Except.ok s.user, s, [Ev.storeGet s.key])

/-- signIn(user, onSuccess?): awaits authorize(user). A falsy payload is
only logged and the call resolves with the state untouched. A truthy
payload assigns this.user first, then awaits setUser, then emits SIGNIN
carrying the payload and the user, logs, and runs the optional success
callback. The surrounding catch (authorize rejection or setUser
rejection) logs, clears this.user, removes the stored token, and the call
still resolves. -/
def signIn (authorize : User → Except JsError (Option AuthPayload))
    (u : User) (hasOnSuccess : Bool) (s : AuthState) : Outcome Unit :=
  match authorize u with
  | Except.error e =>
      (Except.ok (), { s with user := none, store := s.store.removeItem s.key },
        [Ev.callAuthorize u, Ev.logError e, Ev.assignUser none, Ev.storeRemove s.key])
  | Except.ok none =>
      (Except.ok (), s,
        [Ev.callAuthorize u, Ev.logError "The authorize callback returns some invalid data"])
  | Except.ok (some p) =>
      let s1 := { s with user := some u }
      match setUser p s1 with
      | (Except.error e, s2, tr) =>
          (Except.ok (), { s2 with user := none, store := s2.store.removeItem s2.key },
            [Ev.callAuthorize u, Ev.assignUser (some u)] ++ tr ++
              [Ev.logError e, Ev.assignUser none, Ev.storeRemove s.key])
      | (Except.ok _, s2, tr) =>
          (Except.ok (), s2,
            [Ev.callAuthorize u, Ev.assignUser (some u)] ++ tr ++
              [Ev.emit (EmitEv.SIGNIN u p),
               Ev.logInfo "The user has beed successfully signed in"] ++
              (if hasOnSuccess then [Ev.callOnSuccess p] else []))

/-- ejectTriggeredInterceptors: detaches every recorded interceptor handle
and empties the registry; the early return on an empty registry yields
the same state. -/
def ejectTriggeredInterceptors (s : AuthState) : AuthState :=
  { s with ejectIds := [] }

/-- signOut(): removes the stored token, clears this.user, detaches the
interceptor handles, emits SIGNOUT, and finally awaits the optional
sign-out callback; a rejection of that callback propagates to the
caller. -/
def signOut (signOutCallback : Option (Except JsError Unit)) (s : AuthState) : Outcome Unit :=
  let s1 := ejectTriggeredInterceptors { s with store := s.store.removeItem s.key, user := none }
  let tr : List Ev := [Ev.storeRemove s.key, Ev.assignUser none, Ev.emit EmitEv.SIGNOUT]
  match signOutCallback with
  | none => (Except.ok (), s1, tr)
  | some (Except.ok _) => (Except.ok (), s1, tr ++ [Ev.callSignOutCallback])
  | some (Except.error e) => (Except.error e, s1, tr ++ [Ev.callSignOutCallback])

/-- tryOverrideTokenExpiration: in-place, one-shot derivation of expiresIn
from the exp claim. Both guards use JavaScript truthiness, so an
expiresIn of 0 counts as unset and may be overwritten, and an exp claim
of 0 is never adopted. -/
def tryOverrideTokenExpiration (p : AuthPayload) (claims : JWTClaims) : AuthPayload :=
  if truthyNum p.expiresIn then p
  else match claims.exp with
    | some e => if e != 0 then { p with expiresIn := some e } else p
    | none => p

/-- checkAccessTokenIsExpired(refresh): a resolved no-op without a payload or
with an empty access token. Otherwise the access token is decoded; the
decoder throws on a malformed token and nothing catches that throw, so
the returned promise rejects (the null comparison the source performs is
unreachable). On a decoded token the one-shot expiry derivation runs, and
when the expiry is truthy and before now the refresh callback is awaited
with the current refresh token: success replaces the payload through
setUser, and failure is logged and answered by the forced teardown that
detaches the interceptors, removes the stored token and clears this.user,
without emitting SIGNOUT and without the sign-out callback. Date.now() is
the now argument. -/
def checkAccessTokenIsExpired (now : Nat)
    (handleRefreshToken : String → Except JsError AuthPayload)
    (s : AuthState) : Outcome Unit :=
  match s.authPayload with
  | none => (Except.ok (), s, [])
  | some p =>
      if p.accessToken = "" then (Except.ok (), s, [])
      else
        match decodeJwt p.accessToken with
        | Except.error e => (Except.error e, s, [])
        | Except.ok claims =>
            let p1 := tryOverrideTokenExpiration p claims
            let s1 := { s with authPayload := some p1 }
            match p1.expiresIn with
            | none => (Except.ok (), s1, [])
            | some n =>
                if n ≠ 0 ∧ now > n then
                  match handleRefreshToken p1.refreshToken with
                  | Except.error e =>
                      (Except.ok (),
                        ejectTriggeredInterceptors
                          { s1 with store := s1.store.removeItem s1.key, user := none },
                        [Ev.callRefresh p1.refreshToken, Ev.logError e,
                         Ev.storeRemove s1.key, Ev.assignUser none])
                  | Except.ok np =>
                      match setUser np s1 with
                      | (Except.ok _, s2, tr) =>
                          (Except.ok (), s2, Ev.callRefresh p1.refreshToken :: tr)
                      | (Except.error e, s2, tr) =>
                          (Except.ok (),
                            ejectTriggeredInterceptors
                              { s2 with store := s2.store.removeItem s2.key, user := none },
                            (Ev.callRefresh p1.refreshToken :: tr) ++
                              [Ev.logError e, Ev.storeRemove s2.key, Ev.assignUser none])
                else (Except.ok (), s1, [])

/-- applyAxiosMiddleware: records the two opaque interceptor handles handed
back by the external HTTP client in the eject-id registry. -/
def applyAxiosMiddleware (responseId requestId : Nat) (s : AuthState) : AuthState :=
  { s with ejectIds := s.ejectIds ++ [responseId, requestId] }

/-- Storage key addressed by a trace event, when the event is a storage
access. -/
def Ev.storeKeyOf : Ev → Option String
  | Ev.storeGet k => some k
  | Ev.storeSet k _ => some k
  | Ev.storeRemove k => some k
  | _ => none

/-- True when the event is a call into a network-facing callback. -/
def Ev.isNetworkCall : Ev → Bool
  | Ev.callAuthorize _ => true
  | Ev.callRefresh _ => true
  | _ => false

/-- True when every storage access in the trace addresses the given key. -/
def usesOnlyKey (k : String) (tr : List Ev) : Bool :=
  tr.all (fun e => (e.storeKeyOf.getD k) == k)

/-- After removeItem, the key has no binding. -/
theorem lookup_removeItem (st : StoreState) (k : String) :
    (st.removeItem k).lookup k = none := by
  unfold StoreState.removeItem StoreState.lookup
  have h : (st.items.filter (fun kv => kv.1 != k)).find? (fun kv => kv.1 == k) = none := by
    rw [List.find?_eq_none]
    intro kv hkv
    have := (List.mem_filter.mp hkv).2
    simpa using this
  simp [h]

/-- A binding just pushed in front of the item list is what lookup finds. -/
theorem lookup_cons_self (l : List (String × String)) (g f : Bool) (k v : String) :
    StoreState.lookup { items := (k, v) :: l, getFails := g, setFails := f } k = some v := by
  simp [StoreState.lookup, List.find?]

/-- The one-shot expiry derivation never touches the refresh token. -/
theorem tryOverride_refreshToken (p : AuthPayload) (claims : JWTClaims) :
    (tryOverrideTokenExpiration p claims).refreshToken = p.refreshToken := by
  unfold tryOverrideTokenExpiration
  split
  · rfl
  · split
    · split <;> rfl
    · rfl

/-- Claim C1: evaluation of the code at the failing input. With a malformed
access token, one the decoder cannot decode, checkAccessTokenIsExpired
rejects with the decode error instead of completing as a resolved no-op:
jose.decodeJwt throws and nothing catches the throw. The refresh callback
is never called and the user, the payload and the stored token are left
unchanged, but the returned promise rejects, contradicting the claim. -/
theorem C1_checkExpired_malformed_token_rejects :
    checkAccessTokenIsExpired 100
        (fun _ => Except.ok { accessToken := "a2", refreshToken := "r2" })
        { key := "token", user := some { sub := "u1" },
          authPayload := some { accessToken := "garbage", refreshToken := "r" },
          store := { items := [("token", "v")] } }
      = (Except.error "JWTInvalid: Invalid JWT",
         { key := "token", user := some { sub := "u1" },
           authPayload := some { accessToken := "garbage", refreshToken := "r" },
           store := { items := [("token", "v")] } },
         []) := by
  rfl

/-- Claim C2: evaluation of the code at the failing input. When the storage
read throws, getUser logs the failure and then rejects: the catch calls
reject(error) before its trailing resolve(null), and a promise settles
once, so the rejection wins and the call does not resolve to null. -/
theorem C2_getUser_read_failure_rejects :
    getUser
        { key := "token", user := some { sub := "u1" },
          store := { items := [("token", "v")], getFails := true } }
      = (Except.error "storage.getItem threw",
         { key := "token", user := some { sub := "u1" },
           store := { items := [("token", "v")], getFails := true } },
         [Ev.storeGet "token", Ev.logError "storage.getItem threw"]) := by
  rfl

/-- Claim C3 fails as stated: with a previous session still in memory and in
storage, an authorize callback that resolves to a falsy value makes
signIn log and return early. The in-memory user stays set and the stored
token stays present, contradicting the claimed best-effort sign-out. -/
theorem C3_counterexample :
    (signIn (fun _ => Except.ok none) { sub := "u1" } false
        { key := "token", user := some { sub := "old" },
          store := { items := [("token", "stale")] } }).1 = Except.ok () ∧
    (signIn (fun _ => Except.ok none) { sub := "u1" } false
        { key := "token", user := some { sub := "old" },
          store := { items := [("token", "stale")] } }).2.1.user = some { sub := "old" } ∧
    (signIn (fun _ => Except.ok none) { sub := "u1" } false
        { key := "token", user := some { sub := "old" },
          store := { items := [("token", "stale")] } }).2.1.store.lookup "token"
      = some "stale" := by
  exact ⟨rfl, rfl, rfl⟩

/-- Claim C3 amended: when the authorize callback rejects, signIn resolves
without throwing and afterwards the in-memory user is cleared and the
persisted token under the configured key is removed; when the callback
resolves to a falsy value, signIn also resolves without throwing, but it
only logs an error and leaves the user, the payload and the storage
untouched. -/
theorem C3_amended_signIn_authorize_failure
    (az : User → Except JsError (Option AuthPayload)) (u : User) (b : Bool) (s : AuthState) :
    (∀ e, az u = Except.error e →
      (signIn az u b s).1 = Except.ok () ∧
      (signIn az u b s).2.1.user = none ∧
      (signIn az u b s).2.1.store.lookup s.key = none) ∧
    (az u = Except.ok none →
      (signIn az u b s).1 = Except.ok () ∧
      (signIn az u b s).2.1 = s ∧
      (signIn az u b s).2.2 =
        [Ev.callAuthorize u,
         Ev.logError "The authorize callback returns some invalid data"]) := by
  constructor
  · intro e he
    refine ⟨?_, ?_, ?_⟩ <;> simp [signIn, he, lookup_removeItem]
  · intro he
    refine ⟨?_, ?_, ?_⟩ <;> simp [signIn, he]

/-- Claim C3 amended, witness: a rejecting authorize callback on a state with
a stale session clears the user and removes the stored token while the
call resolves. -/
theorem C3_amended_witness :
    (signIn (fun _ => Except.error "boom") { sub := "u1" } false
        { key := "token", user := some { sub := "old" },
          store := { items := [("token", "stale")] } }).1 = Except.ok () ∧
    (signIn (fun _ => Except.error "boom") { sub := "u1" } false
        { key := "token", user := some { sub := "old" },
          store := { items := [("token", "stale")] } }).2.1.user = none ∧
    (signIn (fun _ => Except.error "boom") { sub := "u1" } false
        { key := "token", user := some { sub := "old" },
          store := { items := [("token", "stale")] } }).2.1.store.lookup "token" = none := by
  exact (C3_amended_signIn_authorize_failure _ _ _ _).1 "boom" rfl

/-- Every storage access of getUser addresses the configured key. -/
theorem usesOnlyKey_getUser (s : AuthState) :
    usesOnlyKey s.key (getUser s).2.2 = true := by
  unfold getUser StoreState.getItem
  by_cases h : s.store.getFails
  · simp [h, usesOnlyKey, Ev.storeKeyOf]
  · cases hl : s.store.lookup s.key <;> simp [h, hl, usesOnlyKey, Ev.storeKeyOf]

/-- Every storage access of setUser addresses the configured key. -/
theorem usesOnlyKey_setUser (s : AuthState) (p : AuthPayload) :
    usesOnlyKey s.key (setUser p s).2.2 = true := by
  unfold setUser persistJWTTokenPayload StoreState.setItem
  by_cases h : s.store.setFails <;> simp [h, usesOnlyKey, Ev.storeKeyOf]

/-- Every storage access of signIn addresses the configured key. -/
theorem usesOnlyKey_signIn (az : User → Except JsError (Option AuthPayload))
    (u : User) (b : Bool) (s : AuthState) :
    usesOnlyKey s.key (signIn az u b s).2.2 = true := by
  unfold signIn
  cases haz : az u with
  | error e => simp [usesOnlyKey, Ev.storeKeyOf]
  | ok o =>
      cases o with
      | none => simp [usesOnlyKey, Ev.storeKeyOf]
      | some p =>
          unfold setUser persistJWTTokenPayload StoreState.setItem
          by_cases h : s.store.setFails <;>
            cases b <;> simp [h, usesOnlyKey, Ev.storeKeyOf]

/-- Every storage access of signOut addresses the configured key. -/
theorem usesOnlyKey_signOut (cb : Option (Except JsError Unit)) (s : AuthState) :
    usesOnlyKey s.key (signOut cb s).2.2 = true := by
  unfold signOut
  cases cb with
  | none => simp [usesOnlyKey, Ev.storeKeyOf]
  | some r => cases r <;> simp [usesOnlyKey, Ev.storeKeyOf]

/-- Every storage access of checkAccessTokenIsExpired addresses the
configured key. -/
theorem usesOnlyKey_checkExpired (now : Nat)
    (rf : String → Except JsError AuthPayload) (s : AuthState) :
    usesOnlyKey s.key (checkAccessTokenIsExpired now rf s).2.2 = true := by
  unfold checkAccessTokenIsExpired
  cases hp : s.authPayload with
  | none => simp [usesOnlyKey]
  | some p =>
      by_cases hat : p.accessToken = ""
      · simp [hat, usesOnlyKey]
      · cases hdec : decodeJwt p.accessToken with
        | error e => simp [hat, hdec, usesOnlyKey]
        | ok claims =>
            cases hexp : (tryOverrideTokenExpiration p claims).expiresIn with
            | none => simp [hat, hdec, hexp, usesOnlyKey]
            | some n =>
                by_cases hcond : n ≠ 0 ∧ now > n
                · cases hrf : rf (tryOverrideTokenExpiration p claims).refreshToken with
                  | error e =>
                      simp [hat, hdec, hexp, hcond, hrf, usesOnlyKey, Ev.storeKeyOf,
                        ejectTriggeredInterceptors]
                  | ok np =>
                      unfold setUser persistJWTTokenPayload StoreState.setItem
                      by_cases hw : s.store.setFails <;>
                        simp [hat, hdec, hexp, hcond, hrf, hw, usesOnlyKey, Ev.storeKeyOf,
                          ejectTriggeredInterceptors]
                · simp [hat, hdec, hexp, hcond, usesOnlyKey]

/-- Claim C4 fails as stated: supplying a scope at construction has no
effect unless a storageOptions argument is supplied as well, because the
constructor calls setStorageOptions only when storageOptions is present.
Constructing with scope app and no storageOptions leaves the default key
token, not app:token. -/
theorem C4_counterexample :
    mkKey none (some "app") = "token" ∧ mkKey none (some "app") ≠ "app:token" := by
  exact ⟨rfl, by decide⟩

/-- Claim C4 amended: the default storage key is token, and the scope
namespace is applied only when a storageOptions argument is supplied at
construction: with scope app and storageOptions present (its key left to
the default) the effective key is app:token, while with scope app and no
storageOptions the key remains token. Construction installs the computed
key, and every storage read, write and removal performed by the
operations addresses exactly the effective key of the state. -/
theorem C4_amended_effective_key :
    mkKey none none = "token" ∧
    mkKey (some {}) (some "app") = "app:token" ∧
    mkKey none (some "app") = "token" ∧
    (∀ so sc st, (AuthConfig.init so sc st).key = mkKey so sc) ∧
    (∀ s, usesOnlyKey s.key (getUser s).2.2 = true) ∧
    (∀ s p, usesOnlyKey s.key (setUser p s).2.2 = true) ∧
    (∀ s az u b, usesOnlyKey s.key (signIn az u b s).2.2 = true) ∧
    (∀ s cb, usesOnlyKey s.key (signOut cb s).2.2 = true) ∧
    (∀ s now rf, usesOnlyKey s.key (checkAccessTokenIsExpired now rf s).2.2 = true) := by
  refine ⟨rfl, rfl, rfl, fun so sc st => rfl, fun s => usesOnlyKey_getUser s,
    fun s p => usesOnlyKey_setUser s p, fun s az u b => usesOnlyKey_signIn az u b s,
    fun s cb => usesOnlyKey_signOut cb s,
    fun s now rf => usesOnlyKey_checkExpired now rf s⟩

/-- Claim C5: after a successful signIn the in-memory user equals the input
user, the stored value under the configured key equals the JSON encoding
of the authorized payload, a SIGNIN event carrying the user and the
payload was emitted, and in the event trace the assignment of the
in-memory user precedes the storage write, so the user is adopted before
persistence is attempted. -/
theorem C5_signIn_success
    (az : User → Except JsError (Option AuthPayload)) (u : User) (b : Bool)
    (s : AuthState) (p : AuthPayload)
    (haz : az u = Except.ok (some p)) (hw : s.store.setFails = false) :
    (signIn az u b s).1 = Except.ok () ∧
    (signIn az u b s).2.1.user = some u ∧
    (signIn az u b s).2.1.store.lookup s.key = some (stringifyPayload p) ∧
    Ev.emit (EmitEv.SIGNIN u p) ∈ (signIn az u b s).2.2 ∧
    ∃ l1 l2 l3, (signIn az u b s).2.2 =
      l1 ++ Ev.assignUser (some u) ::
        (l2 ++ Ev.storeSet s.key (stringifyPayload p) :: l3) := by
  have hset : setUser p { s with user := some u } =
      (Except.ok (),
        { key := s.key,
          user := some u,
          authPayload := some p,
          ejectIds := s.ejectIds,
          store := { items := (s.key, stringifyPayload p) ::
                       s.store.items.filter (fun kv => kv.1 != s.key),
                     getFails := s.store.getFails,
                     setFails := s.store.setFails } },
        [Ev.assignPayload (some p), Ev.storeSet s.key (stringifyPayload p),
         Ev.emit (EmitEv.SETUSER p),
         Ev.logInfo "The user payload has been successfully updated."]) := by
    unfold setUser persistJWTTokenPayload StoreState.setItem
    simp [hw]
  refine ⟨?_, ?_, ?_, ?_, ?_⟩
  · simp [signIn, haz, hset]
  · simp [signIn, haz, hset]
  · simp [signIn, haz, hset, lookup_cons_self]
  · simp [signIn, haz, hset]
  · refine ⟨[Ev.callAuthorize u], [Ev.assignPayload (some p)],
      [Ev.emit (EmitEv.SETUSER p),
       Ev.logInfo "The user payload has been successfully updated.",
       Ev.emit (EmitEv.SIGNIN u p),
       Ev.logInfo "The user has beed successfully signed in"] ++
        (if b then [Ev.callOnSuccess p] else []), ?_⟩
    simp [signIn, haz, hset]

/-- Claim C5, witness: a concrete successful sign-in sets the user and
stores the JSON encoding of the payload under the key. -/
theorem C5_witness :
    (signIn (fun _ => Except.ok (some { accessToken := "a", refreshToken := "b" }))
        { sub := "u1" } false
        { key := "token", store := { items := [] } }).2.1.user = some { sub := "u1" } ∧
    (signIn (fun _ => Except.ok (some { accessToken := "a", refreshToken := "b" }))
        { sub := "u1" } false
        { key := "token", store := { items := [] } }).2.1.store.lookup "token"
      = some (stringifyPayload { accessToken := "a", refreshToken := "b" }) := by
  have h := C5_signIn_success
    (fun _ => Except.ok (some { accessToken := "a", refreshToken := "b" }))
    { sub := "u1" } false { key := "token", store := { items := [] } }
    { accessToken := "a", refreshToken := "b" } rfl rfl
  exact ⟨h.2.1, h.2.2.1⟩

/-- Claim C6: when the current token is expired and the per-call refresh
function rejects, checkAccessTokenIsExpired resolves and performs the
forced teardown: the stored token is removed, the in-memory user is
cleared and the middleware handle registry is emptied, yet no SIGNOUT
event is emitted and the sign-out callback is not invoked; an explicit
signOut with a configured sign-out callback both emits SIGNOUT and
invokes the callback. -/
theorem C6_forced_teardown_vs_signOut
    (s s2 : AuthState) (p : AuthPayload) (claims : JWTClaims) (now n : Nat)
    (rf : String → Except JsError AuthPayload) (e : JsError) (cb : Except JsError Unit)
    (hp : s.authPayload = some p) (hat : p.accessToken ≠ "")
    (hdec : decodeJwt p.accessToken = Except.ok claims)
    (hexp : (tryOverrideTokenExpiration p claims).expiresIn = some n)
    (hn : n ≠ 0) (hnow : now > n)
    (hrf : rf p.refreshToken = Except.error e) :
    (checkAccessTokenIsExpired now rf s).1 = Except.ok () ∧
    (checkAccessTokenIsExpired now rf s).2.1.user = none ∧
    (checkAccessTokenIsExpired now rf s).2.1.store.lookup s.key = none ∧
    (checkAccessTokenIsExpired now rf s).2.1.ejectIds = [] ∧
    Ev.emit EmitEv.SIGNOUT ∉ (checkAccessTokenIsExpired now rf s).2.2 ∧
    Ev.callSignOutCallback ∉ (checkAccessTokenIsExpired now rf s).2.2 ∧
    Ev.emit EmitEv.SIGNOUT ∈ (signOut (some cb) s2).2.2 ∧
    Ev.callSignOutCallback ∈ (signOut (some cb) s2).2.2 := by
  have hrf2 : rf (tryOverrideTokenExpiration p claims).refreshToken = Except.error e := by
    rw [tryOverride_refreshToken]; exact hrf
  refine ⟨?_, ?_, ?_, ?_, ?_, ?_, ?_, ?_⟩
  · simp [checkAccessTokenIsExpired, hp, hat, hdec, hexp, hn, hnow, hrf2,
      ejectTriggeredInterceptors]
  · simp [checkAccessTokenIsExpired, hp, hat, hdec, hexp, hn, hnow, hrf2,
      ejectTriggeredInterceptors]
  · simp [checkAccessTokenIsExpired, hp, hat, hdec, hexp, hn, hnow, hrf2,
      ejectTriggeredInterceptors, lookup_removeItem]
  · simp [checkAccessTokenIsExpired, hp, hat, hdec, hexp, hn, hnow, hrf2,
      ejectTriggeredInterceptors]
  · simp [checkAccessTokenIsExpired, hp, hat, hdec, hexp, hn, hnow, hrf2,
      ejectTriggeredInterceptors]
  · simp [checkAccessTokenIsExpired, hp, hat, hdec, hexp, hn, hnow, hrf2,
      ejectTriggeredInterceptors]
  · cases cb <;> simp [signOut]
  · cases cb <;> simp [signOut]

/-- Claim C6, witness: a concrete expired session whose refresh rejects is
torn down without SIGNOUT, while an explicit signOut invokes the
configured callback. -/
theorem C6_witness :
    (checkAccessTokenIsExpired 10 (fun _ => Except.error "refresh down")
        { key := "token", user := some { sub := "u" },
          authPayload := some { accessToken := "h.5.s", refreshToken := "r" },
          ejectIds := [1, 2], store := { items := [("token", "v")] } }).2.1.user = none ∧
    Ev.emit EmitEv.SIGNOUT ∉
      (checkAccessTokenIsExpired 10 (fun _ => Except.error "refresh down")
        { key := "token", user := some { sub := "u" },
          authPayload := some { accessToken := "h.5.s", refreshToken := "r" },
          ejectIds := [1, 2], store := { items := [("token", "v")] } }).2.2 ∧
    Ev.callSignOutCallback ∈
      (signOut (some (Except.ok ())) { key := "token", store := { items := [] } }).2.2 := by
  have h := C6_forced_teardown_vs_signOut
    { key := "token", user := some { sub := "u" },
      authPayload := some { accessToken := "h.5.s", refreshToken := "r" },
      ejectIds := [1, 2], store := { items := [("token", "v")] } }
    { key := "token", store := { items := [] } }
    { accessToken := "h.5.s", refreshToken := "r" } { exp := some 5 } 10 5
    (fun _ => Except.error "refresh down") "refresh down" (Except.ok ())
    rfl (by decide) rfl rfl (by decide) (by decide) rfl
  exact ⟨h.2.1, h.2.2.2.2.1, h.2.2.2.2.2.2.2⟩

/-- Claim C7 fails as stated: a payload whose expiresIn was supplied as 0
has its expiresIn field set, yet a later checkAccessTokenIsExpired on the
same instance overwrites it with the exp claim of the decoded token,
because the guard uses JavaScript truthiness and treats 0 as unset. -/
theorem C7_counterexample :
    (checkAccessTokenIsExpired 3 (fun _ => Except.error "no refresh")
        { key := "token",
          authPayload := some { accessToken := "h.5.s", refreshToken := "r",
                                expiresIn := some 0 },
          store := { items := [] } }).2.1.authPayload
      = some { accessToken := "h.5.s", refreshToken := "r", expiresIn := some 5 } ∧
    (some 5 : Option Nat) ≠ some 0 := by
  exact ⟨rfl, by decide⟩

/-- Claim C7 amended: once expiresIn holds a nonzero value, no later
checkAccessTokenIsExpired changes it on that payload instance: the
one-shot derivation returns the instance unchanged, and the call either
keeps that same payload or replaces it wholesale with the payload
returned by a successful refresh; a zero expiresIn, in contrast, counts
as unset for the truthiness guard and may be overwritten. -/
theorem C7_amended_nonzero_expiresIn_stable
    (s : AuthState) (p : AuthPayload) (n now : Nat)
    (rf : String → Except JsError AuthPayload)
    (hp : s.authPayload = some p) (hn : p.expiresIn = some n) (h0 : n ≠ 0) :
    (∀ claims, tryOverrideTokenExpiration p claims = p) ∧
    ((checkAccessTokenIsExpired now rf s).2.1.authPayload = some p ∨
     ∃ q, rf p.refreshToken = Except.ok q ∧
       (checkAccessTokenIsExpired now rf s).2.1.authPayload = some q) := by
  have hover : ∀ claims, tryOverrideTokenExpiration p claims = p := by
    intro c
    unfold tryOverrideTokenExpiration truthyNum
    rw [hn]
    simp [h0]
  refine ⟨hover, ?_⟩
  by_cases hat : p.accessToken = ""
  · left
    simp [checkAccessTokenIsExpired, hp, hat]
  · cases hdec : decodeJwt p.accessToken with
    | error e =>
        left
        simp [checkAccessTokenIsExpired, hp, hat, hdec]
    | ok claims =>
        by_cases hc : n ≠ 0 ∧ now > n
        · cases hrf : rf p.refreshToken with
          | error e =>
              left
              simp [checkAccessTokenIsExpired, hp, hat, hdec, hover claims, hn, hc.1, hc.2,
                hrf, ejectTriggeredInterceptors]
          | ok q =>
              right
              refine ⟨q, rfl, ?_⟩
              by_cases hw : s.store.setFails
              · simp [checkAccessTokenIsExpired, hp, hat, hdec, hover claims, hn, hc.1, hc.2,
                  hrf, setUser, persistJWTTokenPayload, StoreState.setItem, hw,
                  ejectTriggeredInterceptors]
              · simp [checkAccessTokenIsExpired, hp, hat, hdec, hover claims, hn, hc.1, hc.2,
                  hrf, setUser, persistJWTTokenPayload, StoreState.setItem, hw,
                  ejectTriggeredInterceptors]
        · left
          simp [checkAccessTokenIsExpired, hp, hat, hdec, hover claims, hn, hc]

/-- Claim C7 amended, witness: a payload with a nonzero expiresIn of 7 and a
token whose exp claim is 9 keeps expiresIn 7 through the derivation, and
a call whose refresh rejects keeps the same payload instance. -/
theorem C7_amended_witness :
    tryOverrideTokenExpiration
        { accessToken := "h.9.s", refreshToken := "r", expiresIn := some 7 }
        { exp := some 9 }
      = { accessToken := "h.9.s", refreshToken := "r", expiresIn := some 7 } ∧
    ((checkAccessTokenIsExpired 100 (fun _ => Except.error "no refresh")
        { key := "token",
          authPayload := some { accessToken := "h.9.s", refreshToken := "r",
                                expiresIn := some 7 },
          store := { items := [] } }).2.1.authPayload
      = some { accessToken := "h.9.s", refreshToken := "r", expiresIn := some 7 } ∨
     ∃ q, (Except.error "no refresh" : Except JsError AuthPayload) = Except.ok q ∧
       (checkAccessTokenIsExpired 100 (fun _ => Except.error "no refresh")
        { key := "token",
          authPayload := some { accessToken := "h.9.s", refreshToken := "r",
                                expiresIn := some 7 },
          store := { items := [] } }).2.1.authPayload = some q) := by
  have h := C7_amended_nonzero_expiresIn_stable
    { key := "token",
      authPayload := some { accessToken := "h.9.s", refreshToken := "r",
                            expiresIn := some 7 },
      store := { items := [] } }
    { accessToken := "h.9.s", refreshToken := "r", expiresIn := some 7 }
    7 100 (fun _ => Except.error "no refresh") rfl rfl (by decide)
  exact ⟨h.1 { exp := some 9 }, h.2⟩

/-- Claim C8: getUser treats storage, not memory, as the source of truth:
when the store holds no value at the configured key it resolves to null
even if an in-memory user is set; when the store does hold a value it
resolves to the current in-memory user; and its trace contains no call
into a network-facing callback. -/
theorem C8_getUser_storage_source_of_truth
    (s : AuthState) (hread : s.store.getFails = false) :
    (s.store.lookup s.key = none → (getUser s).1 = Except.ok none) ∧
    (∀ v, s.store.lookup s.key = some v → (getUser s).1 = Except.ok s.user) ∧
    (∀ ev, ev ∈ (getUser s).2.2 → ev.isNetworkCall = false) := by
  refine ⟨?_, ?_, ?_⟩
  · intro hl
    simp [getUser, StoreState.getItem, hread, hl]
  · intro v hl
    simp [getUser, StoreState.getItem, hread, hl]
  · intro ev hm
    have htr : (getUser s).2.2 = [Ev.storeGet s.key] := by
      unfold getUser StoreState.getItem
      cases hl : s.store.lookup s.key <;> simp [hread, hl]
    rw [htr] at hm
    cases List.mem_singleton.mp hm
    rfl

/-- Claim C8, witness: with an in-memory user set but an empty store, getUser
resolves to null. -/
theorem C8_witness :
    (getUser
        { key := "token", user := some { sub := "u1" },
          store := { items := [] } }).1 = Except.ok none := by
  exact (C8_getUser_storage_source_of_truth
    { key := "token", user := some { sub := "u1" }, store := { items := [] } } rfl).1 rfl

/-- Claim C9 fails as stated: when authorize succeeds but the storage write
inside setUser throws, the catch of signIn clears the in-memory user
instead of leaving it set to the input user. -/
theorem C9_counterexample :
    (signIn (fun _ => Except.ok (some { accessToken := "a", refreshToken := "b" }))
        { sub := "u1" } false
        { key := "token", store := { items := [], setFails := true } }).2.1.user = none ∧
    (signIn (fun _ => Except.ok (some { accessToken := "a", refreshToken := "b" }))
        { sub := "u1" } false
        { key := "token", store := { items := [], setFails := true } }).2.1.user
      ≠ some { sub := "u1" } := by
  exact ⟨rfl, by decide⟩

/-- Claim C9 amended: when authorize succeeds but persistence inside setUser
fails, signIn still resolves and its catch performs the best-effort
teardown, clearing the in-memory user and removing the stored token,
while the in-memory payload keeps the authorized payload; a direct
setUser call outside signIn, in contrast, leaves the in-memory user
untouched and the storage unchanged, so no matching token is stored. -/
theorem C9_amended_persistence_failure
    (az : User → Except JsError (Option AuthPayload)) (u : User) (b : Bool)
    (s : AuthState) (p : AuthPayload)
    (haz : az u = Except.ok (some p)) (hw : s.store.setFails = true) :
    (signIn az u b s).1 = Except.ok () ∧
    (signIn az u b s).2.1.user = none ∧
    (signIn az u b s).2.1.store.lookup s.key = none ∧
    (signIn az u b s).2.1.authPayload = some p ∧
    (setUser p s).2.1.user = s.user ∧
    (setUser p s).2.1.store = s.store := by
  have hset : setUser p { s with user := some u } =
      (Except.error "storage.setItem threw",
        { key := s.key,
          user := some u,
          authPayload := some p,
          ejectIds := s.ejectIds,
          store := s.store },
        [Ev.assignPayload (some p), Ev.logError "storage.setItem threw"]) := by
    unfold setUser persistJWTTokenPayload StoreState.setItem
    simp [hw]
  refine ⟨?_, ?_, ?_, ?_, ?_, ?_⟩
  · simp [signIn, haz, hset]
  · simp [signIn, haz, hset]
  · simp [signIn, haz, hset, lookup_removeItem]
  · simp [signIn, haz, hset]
  · simp [setUser, persistJWTTokenPayload, StoreState.setItem, hw]
  · simp [setUser, persistJWTTokenPayload, StoreState.setItem, hw]

/-- Claim C9 amended, witness: a concrete sign-in with a failing storage
write resolves, leaves the in-memory payload set to the authorized
payload and no stored token, with the user cleared. -/
theorem C9_amended_witness :
    (signIn (fun _ => Except.ok (some { accessToken := "a", refreshToken := "b" }))
        { sub := "u1" } false
        { key := "token", user := some { sub := "prev" },
          store := { items := [], setFails := true } }).2.1.authPayload
      = some { accessToken := "a", refreshToken := "b" } := by
  exact (C9_amended_persistence_failure
    (fun _ => Except.ok (some { accessToken := "a", refreshToken := "b" }))
    { sub := "u1" } false
    { key := "token", user := some { sub := "prev" },
      store := { items := [], setFails := true } }
    { accessToken := "a", refreshToken := "b" } rfl rfl).2.2.2.1

/-- Claim C10: setUser is not atomic with respect to the in-memory payload:
when the storage write throws, the call rejects, but this.authPayload was
already replaced by the new payload before the failure, and no SETUSER
event was emitted. -/
theorem C10_setUser_not_atomic
    (s : AuthState) (p : AuthPayload) (hw : s.store.setFails = true) :
    (setUser p s).1 = Except.error "storage.setItem threw" ∧
    (setUser p s).2.1.authPayload = some p ∧
    Ev.emit (EmitEv.SETUSER p) ∉ (setUser p s).2.2 := by
  refine ⟨?_, ?_, ?_⟩ <;> simp [setUser, persistJWTTokenPayload, StoreState.setItem, hw]

/-- Claim C10, witness: a concrete setUser with a failing storage write
rejects while the in-memory payload is already replaced. -/
theorem C10_witness :
    (setUser { accessToken := "a", refreshToken := "b" }
        { key := "token", store := { items := [], setFails := true } }).1
      = Except.error "storage.setItem threw" ∧
    (setUser { accessToken := "a", refreshToken := "b" }
        { key := "token", store := { items := [], setFails := true } }).2.1.authPayload
      = some { accessToken := "a", refreshToken := "b" } := by
  have h := C10_setUser_not_atomic
    { key := "token", store := { items := [], setFails := true } }
    { accessToken := "a", refreshToken := "b" } rfl
  exact ⟨h.1, h.2.1⟩

end CredentialAuth
